import Mathlib

/-!
# Verification of the EV yaw fusion supervisor

Shallow embedding of `Ekf::controlEvYawFusion` and `Ekf::stopEvYawFusion`
(src/src/modules/ekf2/EKF/ev_yaw_control.cpp) — the aiding-source fusion
supervisor for external-vision yaw inside the PX4 EKF.

Angles and variances are modelled as exact rationals (`Rat`): the supervisor
logic only moves these values around; the quaternion-to-yaw extraction and the
Kalman arithmetic are external collaborators.  External collaborators that are
not part of the repository snapshot (`resetEstimatorAidStatus`, `isTimedOut`,
`fuseYaw`, `resetQuatStateYaw`, the competing channels' `stop` operations) are
modelled from the specification's contracts; each such definition says so in
its doc comment.  Calls into collaborators are additionally recorded in an
event trace so that claims about *which* primitive was invoked with *which*
argument can be stated.
-/

/-- Rational stand-in for the float constant `M_PI_F` used by `wrap_pi`. -/
def pi_q : Rat := 3.14159265

/-- Modelled from the spec: `wrap_pi` wraps an angle into the canonical
range `(-pi, pi]` by subtracting the right multiple of `2*pi`.  (The real
implementation lives in the external matrix library.) -/
def wrap_pi (x : Rat) : Rat :=
  x - 2 * pi_q * ((⌈(x - pi_q) / (2 * pi_q)⌉ : Int) : Rat)

/-- `sq(x)` from the source: the square of `x` (named `sqr` here because
Mathlib already declares `sq`). -/
def sqr (x : Rat) : Rat := x * x

/-- `math::max(a, b, c)`: three-argument maximum. -/
def max3 (a b c : Rat) : Rat := max (max a b) c

/-- `PX4_ISFINITE`: every rational models a finite float, so this is
always `true` in the embedding. -/
def px4_isfinite (_ : Rat) : Bool := true

/-- `PositionFrame` tag carried by an external-vision sample. -/
inductive PositionFrame where
  | LOCAL_FRAME_NED
  | LOCAL_FRAME_FRD
  deriving DecidableEq, Repr

/-- `extVisionSample`, restricted to the fields this supervisor reads.
`quat_yaw` stands for `getEulerYaw(ev_sample.quat)` and `orientation_var_2`
for `ev_sample.orientation_var(2)`; the quaternion math itself is external. -/
structure ExtVisionSample where
  time_us : Nat
  quat_yaw : Rat
  orientation_var_2 : Rat
  pos_frame : PositionFrame
  deriving DecidableEq, Repr

/-- `estimator_aid_source1d_s`, restricted to the fields this supervisor
reads or writes. -/
structure AidSource1d where
  timestamp_sample : Nat
  observation : Rat
  observation_variance : Rat
  innovation : Rat
  innovation_rejected : Bool
  fusion_enabled : Bool
  fused : Bool
  time_last_fuse : Nat
  deriving DecidableEq, Repr

/-- The `_control_status.flags` bits this supervisor reads or writes.
`mag` abbreviates the magnetometer heading channel's activation,
`gps_yaw` the GPS-yaw channel's, `gps` the GPS position/velocity fusion's.
`ev_yaw_fault` is the per-channel fault flag of the spec. -/
structure ControlFlags where
  tilt_align : Bool
  yaw_align : Bool
  gps : Bool
  gps_yaw : Bool
  mag : Bool
  in_air : Bool
  ev_yaw : Bool
  ev_yaw_fault : Bool
  deriving DecidableEq, Repr

/-- `EvCtrl::YAW` bit of the `ev_ctrl` bitmask (bit 3, modelled from the
spec's "channel enable mask"; the enum itself is external to the snapshot). -/
def EvCtrl_YAW : Nat := 8

/-- The `_params` fields this supervisor reads. -/
structure EkfParams where
  ev_ctrl : Nat
  ev_att_noise : Rat
  no_aid_timeout_max : Nat
  deriving DecidableEq, Repr

/-- The slice of the `Ekf` object's state this supervisor reads or writes.
`R_to_earth_yaw` stands for `getEulerYaw(_R_to_earth)`, `ev_sample_prev_yaw`
for `getEulerYaw(_ev_sample_prev.quat)`, and `imu_time_delayed` for
`_imu_sample_delayed.time_us`. -/
structure EkfState where
  control_status : ControlFlags
  params : EkfParams
  R_to_earth_yaw : Rat
  yaw_pred_prev : Rat
  ev_sample_prev_yaw : Rat
  imu_time_delayed : Nat
  nb_ev_yaw_reset_available : Int
  aid_src_ev_yaw : AidSource1d
  inhibit_ev_yaw_use : Bool
  starting_vision_yaw_fusion : Bool
  deriving DecidableEq, Repr

/-- Per-cycle inputs of `controlEvYawFusion`.  `fuse_success` models the
boolean outcome of the external fusion engine's `fuseYaw` call this cycle
(the engine "may reject internally", spec section 6). -/
structure CycleInput where
  ev_sample : ExtVisionSample
  starting_conditions_passing : Bool
  ev_reset : Bool
  quality_sufficient : Bool
  fuse_success : Bool
  deriving DecidableEq, Repr

/-- Trace of collaborator calls and diagnostics emitted during one cycle. -/
inductive Event where
  | resetQuatStateYawCall (angle variance : Rat)
  | fuseYawCall (innovation variance : Rat)
  | stopMagFusionCall
  | stopGpsYawFusionCall
  | stopGpsFusionCall
  | infoResetToEvYaw
  | warnFusionFailingResetting
  | warnStoppingStartingConditionsFailing
  | warnStoppingFusionFailing
  | warnStoppingContinuingConditionsFailing
  | infoStartingFusion
  | infoStartingFusionResettingState
  deriving DecidableEq, Repr

/-- True exactly on a `resetQuatStateYaw` call event. -/
def Event.isYawReset : Event → Bool
  | Event.resetQuatStateYawCall _ _ => true
  | _ => false

/-- Modelled from the spec: `resetEstimatorAidStatus` returns the status
record to a neutral state — observation, variance, innovation and this
cycle's outcome flags are cleared.  `time_last_fuse` is preserved: the spec
says it "never decreases" and it drives the timeout detection across cycles. -/
def resetEstimatorAidStatus (a : AidSource1d) : AidSource1d :=
  { a with timestamp_sample := 0
         , observation := 0
         , observation_variance := 0
         , innovation := 0
         , innovation_rejected := false
         , fusion_enabled := false
         , fused := false }

/-- Modelled from the spec: `isTimedOut(last, period)` polls whether the
elapsed time since `last` exceeds `period`, against the monotonic fusion
time horizon `_imu_sample_delayed.time_us`. -/
def isTimedOut (s : EkfState) (last_time_us period_us : Nat) : Bool :=
  decide (last_time_us + period_us < s.imu_time_delayed)

/-- Modelled from the spec: `stopMagFusion` clears the magnetometer heading
channel's activation flag (idempotent `stop()`). -/
def stopMagFusion (s : EkfState) : EkfState :=
  { s with control_status := { s.control_status with mag := false } }

/-- Modelled from the spec: `stopGpsYawFusion` clears the GPS-yaw channel's
activation flag (idempotent `stop()`). -/
def stopGpsYawFusion (s : EkfState) : EkfState :=
  { s with control_status := { s.control_status with gps_yaw := false } }

/-- Modelled from the spec: `stopGpsFusion` clears the GPS fusion channel's
activation flag (idempotent `stop()`). -/
def stopGpsFusion (s : EkfState) : EkfState :=
  { s with control_status := { s.control_status with gps := false } }

/-- Modelled from the spec: `resetQuatStateYaw(angle, variance)` replaces the
heading component of the orientation state with `angle` (covariance inflation
is outside the model); it always succeeds. -/
def resetQuatStateYaw (s : EkfState) (angle _variance : Rat) : EkfState :=
  { s with R_to_earth_yaw := angle }

/-- Modelled from the spec: `fuseYaw(innovation, variance, aid_src)` applies a
scalar measurement update; on success it marks the record fused and stamps
`time_last_fuse` with the fusion time, on internal rejection it raises the
record's rejection flag.  The success outcome is an input of the cycle. -/
def fuseYaw (s : EkfState) (success : Bool) : EkfState :=
  if success then
    { s with aid_src_ev_yaw :=
      { s.aid_src_ev_yaw with fused := true, time_last_fuse := s.imu_time_delayed } }
  else
    { s with aid_src_ev_yaw :=
      { s.aid_src_ev_yaw with innovation_rejected := true } }

/-- `Ekf::stopEvYawFusion` (from the source): if the channel is active, clear
its status record and its activation flag; a no-op otherwise. -/
def stopEvYawFusion (s : EkfState) : EkfState :=
  if s.control_status.ev_yaw then
    { s with aid_src_ev_yaw := resetEstimatorAidStatus s.aid_src_ev_yaw
           , control_status := { s.control_status with ev_yaw := false } }
  else s

/-- The observation-builder prefix of `controlEvYawFusion`: reset the status
record, then fill timestamp, observation (`getEulerYaw(ev_sample.quat)`),
floored variance, and the direct innovation. -/
def obsAidSrc (s : EkfState) (ev : ExtVisionSample) : AidSource1d :=
  let a := resetEstimatorAidStatus s.aid_src_ev_yaw
  { a with timestamp_sample := ev.time_us
         , observation := ev.quat_yaw
         , observation_variance :=
             max3 ev.orientation_var_2 s.params.ev_att_noise (sqr (1 / 100))
         , innovation := wrap_pi (s.R_to_earth_yaw - ev.quat_yaw) }

/-- The first `continuing_conditions_passing` computation: channel enabled,
tilt aligned, not inhibited, observation and variance finite. -/
def continuingBase (s : EkfState) (a : AidSource1d) : Bool :=
  decide (Nat.land s.params.ev_ctrl EvCtrl_YAW ≠ 0)
  && s.control_status.tilt_align
  && !s.inhibit_ev_yaw_use
  && px4_isfinite a.observation
  && px4_isfinite a.observation_variance

/-- The exclusivity veto: GPS active and heading aligned while the sample is
not earth-frame (NED). -/
def gpsNedVeto (s : EkfState) (ev : ExtVisionSample) : Bool :=
  s.control_status.gps && s.control_status.yaw_align
  && !(decide (ev.pos_frame = PositionFrame.LOCAL_FRAME_NED))

/-- The delta-yaw innovation substituted for logging when the veto fires. -/
def deltaInnovation (s : EkfState) (ev : ExtVisionSample) : Rat :=
  wrap_pi (wrap_pi (s.R_to_earth_yaw - s.yaw_pred_prev)
           - wrap_pi (ev.quat_yaw - s.ev_sample_prev_yaw))

/-- The status record after the veto clause possibly rewrote the innovation. -/
def aidAfterVeto (s : EkfState) (ev : ExtVisionSample) : AidSource1d :=
  if gpsNedVeto s ev then
    { obsAidSrc s ev with innovation := deltaInnovation s ev }
  else obsAidSrc s ev

/-- `continuing_conditions_passing` after the veto clause. -/
def continuingConditionsPassing (s : EkfState) (ev : ExtVisionSample) : Bool :=
  if gpsNedVeto s ev then false else continuingBase s (obsAidSrc s ev)

/-- The `starting_conditions_passing &= ...` line: the caller-supplied gate,
conjoined with the continuing gate and a one-second (`(uint32_t)1e6`
microseconds) cooldown since the last successful fuse. -/
def startingGate (s : EkfState) (inp : CycleInput) : Bool :=
  inp.starting_conditions_passing
  && (continuingConditionsPassing s inp.ev_sample
      && isTimedOut s (aidAfterVeto s inp.ev_sample).time_last_fuse 1000000)

/-- The `is_fusion_failing` block at the end of the active-and-continuing
path: on timeout, either a bounded recovery reset (target angle: the *raw
innovation*), or a stop — with the escalation warning when the starting gate
still passes.  The `_control_status.flags.ev_yaw_fault = true` assignment is
commented out in the source, so no fault flag is written here. -/
def fusionFailingBlock (s : EkfState) (inp : CycleInput) (starting : Bool) :
    EkfState × List Event :=
  let is_fusion_failing :=
    isTimedOut s s.aid_src_ev_yaw.time_last_fuse s.params.no_aid_timeout_max
  if is_fusion_failing then
    if (decide (s.nb_ev_yaw_reset_available > 0)) && inp.quality_sufficient then
      let s1 := resetQuatStateYaw s s.aid_src_ev_yaw.innovation
                  s.aid_src_ev_yaw.observation_variance
      let s1 := { s1 with aid_src_ev_yaw :=
        { s1.aid_src_ev_yaw with time_last_fuse := s1.imu_time_delayed } }
      let s1 :=
        if s1.control_status.in_air then
          { s1 with nb_ev_yaw_reset_available := s1.nb_ev_yaw_reset_available - 1 }
        else s1
      (s1, [Event.warnFusionFailingResetting,
            Event.resetQuatStateYawCall s.aid_src_ev_yaw.innovation
              s.aid_src_ev_yaw.observation_variance])
    else if starting then
      (stopEvYawFusion s, [Event.warnStoppingStartingConditionsFailing])
    else
      (stopEvYawFusion s, [Event.warnStoppingFusionFailing])
  else (s, [])

/-- The body of the active-and-continuing path before the fusion-health
check: handle a sensor-signaled discontinuity (`ev_reset`), else fuse when
quality suffices, else mark the innovation rejected.  Returns `none` for the
source's early `return` (discontinuity with insufficient quality, which stops
the channel and skips the fusion-health check). -/
def activeContinuingAction (s : EkfState) (inp : CycleInput) :
    Option (EkfState × List Event) :=
  if inp.ev_reset then
    if inp.quality_sufficient then
      let s1 := resetQuatStateYaw s s.aid_src_ev_yaw.observation
                  s.aid_src_ev_yaw.observation_variance
      let s1 := { s1 with aid_src_ev_yaw :=
        { s1.aid_src_ev_yaw with time_last_fuse := s1.imu_time_delayed } }
      some (s1, [Event.infoResetToEvYaw,
                 Event.resetQuatStateYawCall s.aid_src_ev_yaw.observation
                   s.aid_src_ev_yaw.observation_variance])
    else
      none
  else if inp.quality_sufficient then
    some (fuseYaw s inp.fuse_success,
          [Event.fuseYawCall s.aid_src_ev_yaw.innovation
             s.aid_src_ev_yaw.observation_variance])
  else
    some ({ s with aid_src_ev_yaw :=
             { s.aid_src_ev_yaw with innovation_rejected := true } }, [])

/-- The activation path taken when the channel is inactive and the starting
gate passes, dispatching on the sample's reference frame; afterwards, if the
channel did activate, the reset budget is restored to 5. -/
def activateEvYaw (s : EkfState) (ev : ExtVisionSample) : EkfState × List Event :=
  let (s1, evs) :=
    match ev.pos_frame with
    | PositionFrame.LOCAL_FRAME_NED =>
      let (s1, evs) :=
        if s.control_status.yaw_align then
          (s, [Event.infoStartingFusion])
        else
          let sr := resetQuatStateYaw s s.aid_src_ev_yaw.observation
                      s.aid_src_ev_yaw.observation_variance
          ({ sr with control_status := { sr.control_status with yaw_align := true } },
           [Event.infoStartingFusionResettingState,
            Event.resetQuatStateYawCall s.aid_src_ev_yaw.observation
              s.aid_src_ev_yaw.observation_variance])
      let s1 := { s1 with aid_src_ev_yaw :=
        { s1.aid_src_ev_yaw with time_last_fuse := s1.imu_time_delayed } }
      ({ s1 with starting_vision_yaw_fusion := true
               , control_status := { s1.control_status with ev_yaw := true } }, evs)
    | PositionFrame.LOCAL_FRAME_FRD =>
      let s1 := stopMagFusion s
      let s1 := stopGpsYawFusion s1
      let s1 := stopGpsFusion s1
      let s1 := resetQuatStateYaw s1 s1.aid_src_ev_yaw.observation
                  s1.aid_src_ev_yaw.observation_variance
      let s1 := { s1 with aid_src_ev_yaw :=
        { s1.aid_src_ev_yaw with time_last_fuse := s1.imu_time_delayed } }
      ({ s1 with starting_vision_yaw_fusion := true
               , control_status :=
                   { s1.control_status with yaw_align := false, ev_yaw := true } },
       [Event.stopMagFusionCall, Event.stopGpsYawFusionCall, Event.stopGpsFusionCall,
        Event.infoStartingFusionResettingState,
        Event.resetQuatStateYawCall s.aid_src_ev_yaw.observation
          s.aid_src_ev_yaw.observation_variance])
  if s1.control_status.ev_yaw then
    ({ s1 with nb_ev_yaw_reset_available := 5 }, evs)
  else (s1, evs)

/-- True exactly on the escalation warning of the fusion-health block. -/
def Event.isEscalationWarn : Event → Bool
  | Event.warnStoppingStartingConditionsFailing => true
  | _ => false

/-- `Ekf::controlEvYawFusion`: one supervisor cycle.  Returns the updated
estimator state and the trace of collaborator calls and diagnostics. -/
def controlEvYawFusion (s0 : EkfState) (inp : CycleInput) : EkfState × List Event :=
  let ev := inp.ev_sample
  let continuing := continuingConditionsPassing s0 ev
  let starting := startingGate s0 inp
  let s := { s0 with aid_src_ev_yaw := aidAfterVeto s0 ev }
  if s.control_status.ev_yaw then
    let s := { s with aid_src_ev_yaw :=
      { s.aid_src_ev_yaw with fusion_enabled := true } }
    if continuing then
      match activeContinuingAction s inp with
      | none => (stopEvYawFusion s, [])
      | some (s1, evs) =>
        let (s2, evs2) := fusionFailingBlock s1 inp starting
        (s2, evs ++ evs2)
    else
      (stopEvYawFusion s, [Event.warnStoppingContinuingConditionsFailing])
  else
    if starting then activateEvYaw s ev
    else (s, [])

/-! ## Concrete fixtures

Concrete states and inputs used to instantiate witnesses and
counterexamples.  Rational constants are written with `Rat.divInt` so that
they are already in normal form. -/

/-- A neutral status record whose last successful fuse was at t = 1000 us. -/
def aidStart : AidSource1d :=
  { timestamp_sample := 0, observation := 0, observation_variance := 0,
    innovation := 0, innovation_rejected := false, fusion_enabled := false,
    fused := false, time_last_fuse := 1000 }

/-- EV yaw enabled, 1e-3 noise floor, 5-second fusion timeout. -/
def paramsStd : EkfParams :=
  { ev_ctrl := 8, ev_att_noise := Rat.divInt 1 1000, no_aid_timeout_max := 5000000 }

/-- Baseline estimator state: channel active, tilt and yaw aligned, airborne,
GPS and the other heading channels inactive, fusion time horizon at t = 10 s,
reset budget empty, current heading 1/4 rad. -/
def sBase : EkfState :=
  { control_status :=
      { tilt_align := true, yaw_align := true, gps := false, gps_yaw := false,
        mag := false, in_air := true, ev_yaw := true, ev_yaw_fault := false },
    params := paramsStd, R_to_earth_yaw := Rat.divInt 1 4,
    yaw_pred_prev := 0, ev_sample_prev_yaw := 0, imu_time_delayed := 10000000,
    nb_ev_yaw_reset_available := 0, aid_src_ev_yaw := aidStart,
    inhibit_ev_yaw_use := false, starting_vision_yaw_fusion := false }

/-- An earth-frame sample at t = 9 s observing yaw 1/4 rad. -/
def evNED : ExtVisionSample :=
  { time_us := 9000000, quat_yaw := Rat.divInt 1 4,
    orientation_var_2 := Rat.divInt 1 100,
    pos_frame := PositionFrame.LOCAL_FRAME_NED }

/-- The same observation tagged body-frame. -/
def evFRD : ExtVisionSample :=
  { evNED with pos_frame := PositionFrame.LOCAL_FRAME_FRD }

/-- Cycle input: caller's starting gate up, no discontinuity, quality
sufficient, but the external fusion engine rejects the update. -/
def inpFuseRejected : CycleInput :=
  { ev_sample := evNED, starting_conditions_passing := true, ev_reset := false,
    quality_sufficient := true, fuse_success := false }

/-- Cycle input: no discontinuity, quality sufficient, fusion succeeds. -/
def inpFuseOk : CycleInput :=
  { inpFuseRejected with fuse_success := true }

/-- Active state with reset budget left and a stale `time_last_fuse`. -/
def sBudget : EkfState :=
  { sBase with nb_ev_yaw_reset_available := 3
             , R_to_earth_yaw := Rat.divInt 1 1 }

/-- Active state whose last fuse is recent (t = 9.5 s): not timed out. -/
def sRecentFuse : EkfState :=
  { sBase with aid_src_ev_yaw := { aidStart with time_last_fuse := 9500000 } }

/-- Inactive state, heading already aligned, competing channels running. -/
def sInactive : EkfState :=
  { sBase with control_status :=
      { sBase.control_status with ev_yaw := false
                                , gps := true
                                , gps_yaw := true
                                , mag := true
                                , yaw_align := false } }

/-- Inactive state with yaw alignment already established and GPS off. -/
def sInactiveAligned : EkfState :=
  { sBase with control_status := { sBase.control_status with ev_yaw := false } }

/-- Input carrying the body-frame sample. -/
def inpFRD : CycleInput := { inpFuseRejected with ev_sample := evFRD }

/-- Input signaling a sensor discontinuity with sufficient quality. -/
def inpEvReset : CycleInput := { inpFuseRejected with ev_reset := true }

/-- Active, timed-out state with budget left but the vehicle on the ground. -/
def sGround : EkfState :=
  { sBudget with control_status := { sBudget.control_status with in_air := false } }

/-! ## Helper lemmas -/

theorem pi_q_pos : (0 : Rat) < pi_q := by norm_num [pi_q]

/-- An angle already in the canonical range is fixed by `wrap_pi`. -/
theorem wrap_pi_eq_self {x : Rat} (h1 : -pi_q < x) (h2 : x ≤ pi_q) :
    wrap_pi x = x := by
  have hpi : (0 : Rat) < 2 * pi_q := by norm_num [pi_q]
  have hc : ⌈(x - pi_q) / (2 * pi_q)⌉ = 0 := by
    rw [Int.ceil_eq_zero_iff]
    constructor
    · rw [lt_div_iff₀ hpi]
      nlinarith [pi_q_pos]
    · apply div_nonpos_of_nonpos_of_nonneg <;> linarith
  rw [wrap_pi, hc]
  push_cast
  ring

/-- The veto clause only rewrites the innovation: `time_last_fuse` is the
persisted one. -/
theorem aidAfterVeto_time_last_fuse (s : EkfState) (ev : ExtVisionSample) :
    (aidAfterVeto s ev).time_last_fuse = s.aid_src_ev_yaw.time_last_fuse := by
  unfold aidAfterVeto obsAidSrc resetEstimatorAidStatus
  split <;> rfl

/-- The observation put in the status record is the sample's yaw. -/
theorem aidAfterVeto_observation (s : EkfState) (ev : ExtVisionSample) :
    (aidAfterVeto s ev).observation = ev.quat_yaw := by
  unfold aidAfterVeto obsAidSrc resetEstimatorAidStatus
  split <;> rfl

/-- The stored variance is the three-way maximum of the source line. -/
theorem aidAfterVeto_observation_variance (s : EkfState) (ev : ExtVisionSample) :
    (aidAfterVeto s ev).observation_variance
      = max3 ev.orientation_var_2 s.params.ev_att_noise (sqr (1 / 100)) := by
  unfold aidAfterVeto obsAidSrc resetEstimatorAidStatus
  split <;> rfl

/-! ## Claims -/

/-- C9: for every estimator state and input sample, the observation variance
put in the status record is at least the sensor-reported yaw variance
component, at least the configured noise floor, and at least the absolute
minimum constant `sq(0.01)`; in particular it is strictly positive. -/
theorem C9_variance_floor (s : EkfState) (ev : ExtVisionSample) :
    ev.orientation_var_2 ≤ (aidAfterVeto s ev).observation_variance
    ∧ s.params.ev_att_noise ≤ (aidAfterVeto s ev).observation_variance
    ∧ sqr (1 / 100) ≤ (aidAfterVeto s ev).observation_variance
    ∧ 0 < (aidAfterVeto s ev).observation_variance := by
  rw [aidAfterVeto_observation_variance, max3]
  refine ⟨le_max_of_le_left (le_max_left _ _),
          le_max_of_le_left (le_max_right _ _),
          le_max_right _ _, ?_⟩
  have h : (0 : Rat) < sqr (1 / 100) := by norm_num [sqr]
  exact lt_of_lt_of_le h (le_max_right _ _)

/-- C7: the starting gate passes only if the continuing gate passes and the
channel has not fused successfully within the last second; moreover starting
is strictly stricter than continuing (a state with a recent fuse passes
continuing but not starting). -/
theorem C7_starting_stricter :
    (∀ (s : EkfState) (inp : CycleInput), startingGate s inp = true →
      continuingConditionsPassing s inp.ev_sample = true
      ∧ isTimedOut s s.aid_src_ev_yaw.time_last_fuse 1000000 = true)
    ∧ (continuingConditionsPassing sRecentFuse evNED = true
       ∧ startingGate sRecentFuse inpFuseRejected = false) := by
  constructor
  · intro s inp h
    unfold startingGate at h
    rw [aidAfterVeto_time_last_fuse] at h
    simp only [Bool.and_eq_true] at h
    exact ⟨h.2.1, h.2.2⟩
  · exact ⟨by decide, by decide⟩

/-- Witness for C7: a concrete stale-fuse state passes the starting gate, so
the hypothesis is satisfiable and the conclusion holds there. -/
theorem C7_witness :
    startingGate sBase inpFuseRejected = true
    ∧ (continuingConditionsPassing sBase inpFuseRejected.ev_sample = true
       ∧ isTimedOut sBase sBase.aid_src_ev_yaw.time_last_fuse 1000000 = true) :=
  ⟨by decide, C7_starting_stricter.1 sBase inpFuseRejected (by decide)⟩

/-- Case analysis of the reset budget across one cycle: it is unchanged, or
set to 5 by an Inactive-to-Active activation, or decremented by one on the
airborne recovery-reset path (which requires a positive budget). -/
theorem budget_cases (s : EkfState) (inp : CycleInput) :
    ((controlEvYawFusion s inp).1.nb_ev_yaw_reset_available
        = s.nb_ev_yaw_reset_available)
    ∨ (s.control_status.ev_yaw = false
       ∧ (controlEvYawFusion s inp).1.control_status.ev_yaw = true
       ∧ (controlEvYawFusion s inp).1.nb_ev_yaw_reset_available = 5)
    ∨ (s.control_status.in_air = true
       ∧ 0 < s.nb_ev_yaw_reset_available
       ∧ (controlEvYawFusion s inp).1.nb_ev_yaw_reset_available
           = s.nb_ev_yaw_reset_available - 1) := by
  cases hact : s.control_status.ev_yaw with
  | false =>
    cases hst : startingGate s inp with
    | false =>
      left
      simp [controlEvYawFusion, hact, hst]
    | true =>
      cases hfr : inp.ev_sample.pos_frame with
      | LOCAL_FRAME_NED =>
        cases hya : s.control_status.yaw_align with
        | false =>
          right; left
          simp [controlEvYawFusion, activateEvYaw, hact, hst, hfr, hya,
                resetQuatStateYaw, stopMagFusion, stopGpsYawFusion, stopGpsFusion]
        | true =>
          right; left
          simp [controlEvYawFusion, activateEvYaw, hact, hst, hfr, hya,
                resetQuatStateYaw, stopMagFusion, stopGpsYawFusion, stopGpsFusion]
      | LOCAL_FRAME_FRD =>
        right; left
        simp [controlEvYawFusion, activateEvYaw, hact, hst, hfr,
              resetQuatStateYaw, stopMagFusion, stopGpsYawFusion, stopGpsFusion]
  | true =>
    cases hcont : continuingConditionsPassing s inp.ev_sample with
    | false =>
      left
      simp [controlEvYawFusion, hact, hcont, stopEvYawFusion]
    | true =>
      cases hr : inp.ev_reset with
      | true =>
        cases hq : inp.quality_sufficient with
        | false =>
          left
          simp [controlEvYawFusion, activeContinuingAction, hact, hcont, hr, hq,
                stopEvYawFusion]
        | true =>
          left
          simp [controlEvYawFusion, activeContinuingAction, fusionFailingBlock,
                hact, hcont, hr, hq, resetQuatStateYaw, isTimedOut,
                stopEvYawFusion]
      | false =>
        cases hq : inp.quality_sufficient with
        | true =>
          cases hfs : inp.fuse_success with
          | true =>
            left
            simp [controlEvYawFusion, activeContinuingAction, fusionFailingBlock,
                  hact, hcont, hr, hq, hfs, fuseYaw, isTimedOut, stopEvYawFusion]
          | false =>
            cases hto : isTimedOut s s.aid_src_ev_yaw.time_last_fuse
                s.params.no_aid_timeout_max with
            | false =>
              left
              simp only [isTimedOut] at hto
              simp [controlEvYawFusion, activeContinuingAction, fusionFailingBlock,
                    hact, hcont, hr, hq, hfs, fuseYaw, isTimedOut,
                    aidAfterVeto_time_last_fuse, hto, stopEvYawFusion]
            | true =>
              simp only [isTimedOut] at hto
              by_cases hnb : 0 < s.nb_ev_yaw_reset_available
              · cases hair : s.control_status.in_air with
                | true =>
                  right; right
                  refine ⟨rfl, hnb, ?_⟩
                  simp [controlEvYawFusion, activeContinuingAction,
                        fusionFailingBlock, hact, hcont, hr, hq, hfs, fuseYaw,
                        isTimedOut, aidAfterVeto_time_last_fuse, hto, hnb, hair,
                        resetQuatStateYaw, stopEvYawFusion]
                | false =>
                  left
                  simp [controlEvYawFusion, activeContinuingAction,
                        fusionFailingBlock, hact, hcont, hr, hq, hfs, fuseYaw,
                        isTimedOut, aidAfterVeto_time_last_fuse, hto, hnb, hair,
                        resetQuatStateYaw, stopEvYawFusion]
              · left
                cases hstt : startingGate s inp <;>
                simp [controlEvYawFusion, activeContinuingAction,
                      fusionFailingBlock, hact, hcont, hr, hq, hfs, fuseYaw,
                      isTimedOut, aidAfterVeto_time_last_fuse, hto, hnb, hstt,
                      resetQuatStateYaw, stopEvYawFusion]
        | false =>
          cases hto : isTimedOut s s.aid_src_ev_yaw.time_last_fuse
              s.params.no_aid_timeout_max with
          | false =>
            left
            simp only [isTimedOut] at hto
            simp [controlEvYawFusion, activeContinuingAction, fusionFailingBlock,
                  hact, hcont, hr, hq, isTimedOut,
                  aidAfterVeto_time_last_fuse, hto, stopEvYawFusion]
          | true =>
            left
            simp only [isTimedOut] at hto
            cases hstt : startingGate s inp <;>
            simp [controlEvYawFusion, activeContinuingAction, fusionFailingBlock,
                  hact, hcont, hr, hq, isTimedOut, hstt,
                  aidAfterVeto_time_last_fuse, hto, stopEvYawFusion]

/-- C6: the reset budget never increases except on an Inactive-to-Active
activation, where it is set to exactly 5; any other change is the recovery
path's decrement by one, which requires the budget positive and the vehicle
airborne; in particular, while not airborne the budget never decrements (it
is unchanged unless an activation sets it to 5). -/
theorem C6_budget_monotonicity (s : EkfState) (inp : CycleInput) :
    ((controlEvYawFusion s inp).1.nb_ev_yaw_reset_available
        = s.nb_ev_yaw_reset_available
     ∨ (s.control_status.ev_yaw = false
        ∧ (controlEvYawFusion s inp).1.control_status.ev_yaw = true
        ∧ (controlEvYawFusion s inp).1.nb_ev_yaw_reset_available = 5)
     ∨ (s.control_status.in_air = true
        ∧ 0 < s.nb_ev_yaw_reset_available
        ∧ (controlEvYawFusion s inp).1.nb_ev_yaw_reset_available
            = s.nb_ev_yaw_reset_available - 1))
    ∧ (s.control_status.in_air = false →
       (controlEvYawFusion s inp).1.nb_ev_yaw_reset_available
           = s.nb_ev_yaw_reset_available
       ∨ (s.control_status.ev_yaw = false
          ∧ (controlEvYawFusion s inp).1.control_status.ev_yaw = true
          ∧ (controlEvYawFusion s inp).1.nb_ev_yaw_reset_available = 5)) := by
  refine ⟨budget_cases s inp, fun hg => ?_⟩
  rcases budget_cases s inp with h | h | ⟨h1, _, _⟩
  · exact Or.inl h
  · exact Or.inr h
  · rw [hg] at h1
    exact absurd h1 (by simp)

/-- Witness for C6: at a concrete grounded state the hypothesis of the
no-decrement-on-ground conjunct is satisfied. -/
theorem C6_witness :
    sGround.control_status.in_air = false
    ∧ ((controlEvYawFusion sGround inpFuseRejected).1.nb_ev_yaw_reset_available
           = sGround.nb_ev_yaw_reset_available
       ∨ (sGround.control_status.ev_yaw = false
          ∧ (controlEvYawFusion sGround inpFuseRejected).1.control_status.ev_yaw = true
          ∧ (controlEvYawFusion sGround inpFuseRejected).1.nb_ev_yaw_reset_available = 5)) :=
  ⟨by decide, (C6_budget_monotonicity sGround inpFuseRejected).2 (by decide)⟩

/-- C10: the reset budget never becomes negative: if it is non-negative
before a cycle, it is non-negative after, because the only decrement is
guarded by the budget being strictly positive. -/
theorem C10_budget_nonneg (s : EkfState) (inp : CycleInput)
    (h : 0 ≤ s.nb_ev_yaw_reset_available) :
    0 ≤ (controlEvYawFusion s inp).1.nb_ev_yaw_reset_available := by
  rcases budget_cases s inp with heq | ⟨_, _, h5⟩ | ⟨_, hpos, hdec⟩
  · omega
  · omega
  · omega

/-- Witness for C10 at a concrete airborne, timed-out, budget-3 state. -/
theorem C10_witness :
    0 ≤ sBudget.nb_ev_yaw_reset_available
    ∧ 0 ≤ (controlEvYawFusion sBudget inpFuseRejected).1.nb_ev_yaw_reset_available :=
  ⟨by decide, C10_budget_nonneg sBudget inpFuseRejected (by decide)⟩

/-- C1 counterexample: at a concrete Active state with continuing conditions
passing, fusion timed out, the budget exhausted and the starting gate
passing, the supervisor stops the channel and emits the escalation warning,
but the fault flag is NOT set (the assignment is commented out in the
source), contradicting the claim that a fault flag is set. -/
theorem C1_counterexample :
    sBase.control_status.ev_yaw = true
    ∧ continuingConditionsPassing sBase inpFuseRejected.ev_sample = true
    ∧ isTimedOut sBase sBase.aid_src_ev_yaw.time_last_fuse
        sBase.params.no_aid_timeout_max = true
    ∧ sBase.nb_ev_yaw_reset_available = 0
    ∧ startingGate sBase inpFuseRejected = true
    ∧ (controlEvYawFusion sBase inpFuseRejected).1.control_status.ev_yaw = false
    ∧ (controlEvYawFusion sBase inpFuseRejected).1.control_status.ev_yaw_fault = false
    ∧ Event.warnStoppingStartingConditionsFailing
        ∈ (controlEvYawFusion sBase inpFuseRejected).2 := by
  refine ⟨by decide, by decide, by decide, by decide, by decide, by decide, by decide, ?_⟩
  decide


/-- C1 (amended): when the channel is Active, continuing conditions pass,
fusion is timed out, the reset budget is exhausted (or quality is
insufficient), and the starting gate passes, the supervisor emits the
escalation warning and stops the channel (Active to Inactive), but does not
set any fault flag — the fault flag is unchanged. -/
theorem C1_escalation_stops_without_fault (s : EkfState) (inp : CycleInput)
    (hact : s.control_status.ev_yaw = true)
    (hcont : continuingConditionsPassing s inp.ev_sample = true)
    (hnr : inp.ev_reset = false)
    (hnf : inp.quality_sufficient = false ∨ inp.fuse_success = false)
    (hto : isTimedOut s s.aid_src_ev_yaw.time_last_fuse
        s.params.no_aid_timeout_max = true)
    (hbq : ¬(0 < s.nb_ev_yaw_reset_available ∧ inp.quality_sufficient = true))
    (hst : startingGate s inp = true) :
    (controlEvYawFusion s inp).1.control_status.ev_yaw = false
    ∧ (controlEvYawFusion s inp).1.control_status.ev_yaw_fault
        = s.control_status.ev_yaw_fault
    ∧ Event.warnStoppingStartingConditionsFailing
        ∈ (controlEvYawFusion s inp).2 := by
  simp only [isTimedOut] at hto
  cases hq : inp.quality_sufficient with
  | true =>
    have hnb : ¬0 < s.nb_ev_yaw_reset_available := fun h => hbq ⟨h, hq⟩
    have hfs : inp.fuse_success = false := by
      rcases hnf with h | h
      · rw [hq] at h; exact absurd h (by simp)
      · exact h
    simp [controlEvYawFusion, activeContinuingAction, fusionFailingBlock,
          hact, hcont, hnr, hq, hfs, fuseYaw, isTimedOut,
          aidAfterVeto_time_last_fuse, hto, hnb, hst, stopEvYawFusion]
  | false =>
    simp [controlEvYawFusion, activeContinuingAction, fusionFailingBlock,
          hact, hcont, hnr, hq, isTimedOut,
          aidAfterVeto_time_last_fuse, hto, hst, stopEvYawFusion]


/-- Witness for C1 (amended) at the concrete escalation state. -/
theorem C1_witness :
    (controlEvYawFusion sBase inpFuseRejected).1.control_status.ev_yaw = false
    ∧ (controlEvYawFusion sBase inpFuseRejected).1.control_status.ev_yaw_fault
        = sBase.control_status.ev_yaw_fault
    ∧ Event.warnStoppingStartingConditionsFailing
        ∈ (controlEvYawFusion sBase inpFuseRejected).2 :=
  C1_escalation_stops_without_fault sBase inpFuseRejected (by decide) (by decide)
    (by decide) (Or.inr (by decide)) (by decide) (by decide) (by decide)
/-- C3 counterexample: at a concrete Active state with continuing conditions
passing, no discontinuity and sufficient quality — but fusion timed out and
budget available — the cycle DOES invoke the yaw-reset primitive, refuting
the claim as stated. -/
theorem C3_counterexample :
    sBudget.control_status.ev_yaw = true
    ∧ continuingConditionsPassing sBudget inpFuseRejected.ev_sample = true
    ∧ inpFuseRejected.ev_reset = false
    ∧ inpFuseRejected.quality_sufficient = true
    ∧ (controlEvYawFusion sBudget inpFuseRejected).2.any Event.isYawReset = true := by
  decide

/-- C3 (amended): when the channel is Active, continuing conditions hold, no
discontinuity is signaled, quality is sufficient AND fusion is not timed out,
the state is updated only via `fuseYaw` — the yaw state is unchanged by the
supervisor, no yaw-reset call is emitted, and the fuse call is. -/
theorem C3_no_spurious_reset (s : EkfState) (inp : CycleInput)
    (hact : s.control_status.ev_yaw = true)
    (hcont : continuingConditionsPassing s inp.ev_sample = true)
    (hnr : inp.ev_reset = false)
    (hq : inp.quality_sufficient = true)
    (hnto : isTimedOut s s.aid_src_ev_yaw.time_last_fuse
        s.params.no_aid_timeout_max = false) :
    (controlEvYawFusion s inp).1.R_to_earth_yaw = s.R_to_earth_yaw
    ∧ (controlEvYawFusion s inp).2.all (fun e => !(Event.isYawReset e)) = true
    ∧ Event.fuseYawCall (aidAfterVeto s inp.ev_sample).innovation
        (aidAfterVeto s inp.ev_sample).observation_variance
        ∈ (controlEvYawFusion s inp).2 := by
  simp only [isTimedOut] at hnto
  cases hfs : inp.fuse_success with
  | false =>
    simp [controlEvYawFusion, activeContinuingAction, fusionFailingBlock,
          hact, hcont, hnr, hq, hfs, fuseYaw, isTimedOut,
          aidAfterVeto_time_last_fuse, hnto, Event.isYawReset]
  | true =>
    have hns : ∀ t : Nat, (s.imu_time_delayed + t < s.imu_time_delayed) = False := by
      intro t
      simp
    simp [controlEvYawFusion, activeContinuingAction, fusionFailingBlock,
          hact, hcont, hnr, hq, hfs, fuseYaw, isTimedOut, hns,
          Event.isYawReset]

/-- C5 counterexample: in the concrete earth-frame activation cycle the
stored `time_last_fuse` is the delayed-IMU fusion time (10^7), not the
sample timestamp (9*10^6), refuting the `time_last_fuse = sample_timestamp`
conjunct of the claim. -/
theorem C5_counterexample :
    sInactiveAligned.control_status.ev_yaw = false
    ∧ inpFuseRejected.ev_sample.pos_frame = PositionFrame.LOCAL_FRAME_NED
    ∧ sInactiveAligned.control_status.yaw_align = true
    ∧ startingGate sInactiveAligned inpFuseRejected = true
    ∧ (controlEvYawFusion sInactiveAligned inpFuseRejected).1.control_status.ev_yaw
        = true
    ∧ (controlEvYawFusion sInactiveAligned inpFuseRejected).1.aid_src_ev_yaw.time_last_fuse
        ≠ (controlEvYawFusion sInactiveAligned inpFuseRejected).1.aid_src_ev_yaw.timestamp_sample := by
  decide

/-- C5 (amended): Inactive channel, earth-frame sample, starting gate
passing, yaw alignment already established: the channel becomes Active,
`time_last_fuse` is stamped with the delayed-IMU fusion time (not the
sample's own timestamp), no yaw-state reset is performed, and the alignment
flag is unchanged (still true). -/
theorem C5_earth_frame_activation (s : EkfState) (inp : CycleInput)
    (hinact : s.control_status.ev_yaw = false)
    (hned : inp.ev_sample.pos_frame = PositionFrame.LOCAL_FRAME_NED)
    (halign : s.control_status.yaw_align = true)
    (hst : startingGate s inp = true) :
    (controlEvYawFusion s inp).1.control_status.ev_yaw = true
    ∧ (controlEvYawFusion s inp).1.aid_src_ev_yaw.time_last_fuse
        = s.imu_time_delayed
    ∧ (controlEvYawFusion s inp).2.all (fun e => !(Event.isYawReset e)) = true
    ∧ (controlEvYawFusion s inp).1.R_to_earth_yaw = s.R_to_earth_yaw
    ∧ (controlEvYawFusion s inp).1.control_status.yaw_align = true := by
  simp [controlEvYawFusion, activateEvYaw, hinact, hned, halign, hst,
        Event.isYawReset]

/-- C8 counterexample: in the activation cycle itself (Inactive to Active)
the status record's `fusion_enabled` stays false — the activation branch
never sets it — refuting the "including the activation cycle" part of the
claim. -/
theorem C8_counterexample :
    sInactiveAligned.control_status.ev_yaw = false
    ∧ startingGate sInactiveAligned inpFuseRejected = true
    ∧ (controlEvYawFusion sInactiveAligned inpFuseRejected).1.control_status.ev_yaw
        = true
    ∧ (controlEvYawFusion sInactiveAligned inpFuseRejected).1.aid_src_ev_yaw.fusion_enabled
        = false := by
  decide

/-- C8 (amended): `fusion_enabled` is set true in every cycle that *begins*
with the channel active; whenever the channel is still active at the end of
such a cycle, `fusion_enabled` is true.  (In the Inactive-to-Active
activation cycle it remains false until the next cycle.) -/
theorem C8_fusion_enabled_while_active (s : EkfState) (inp : CycleInput)
    (hact : s.control_status.ev_yaw = true)
    (hend : (controlEvYawFusion s inp).1.control_status.ev_yaw = true) :
    (controlEvYawFusion s inp).1.aid_src_ev_yaw.fusion_enabled = true := by
  cases hcont : continuingConditionsPassing s inp.ev_sample with
  | false =>
    simp [controlEvYawFusion, hcont, hact, stopEvYawFusion,
          resetEstimatorAidStatus] at hend
  | true =>
    cases hr : inp.ev_reset with
    | true =>
      cases hq : inp.quality_sufficient with
      | false =>
        simp [controlEvYawFusion, activeContinuingAction, hact, hcont, hr, hq,
              stopEvYawFusion, resetEstimatorAidStatus] at hend
      | true =>
        have hns : ∀ t : Nat, (s.imu_time_delayed + t < s.imu_time_delayed) = False := by
          intro t
          simp
        simp [controlEvYawFusion, activeContinuingAction, fusionFailingBlock,
              hact, hcont, hr, hq, resetQuatStateYaw, isTimedOut, hns]
    | false =>
      cases hq : inp.quality_sufficient with
      | true =>
        cases hfs : inp.fuse_success with
        | true =>
          have hns : ∀ t : Nat, (s.imu_time_delayed + t < s.imu_time_delayed) = False := by
            intro t
            simp
          simp [controlEvYawFusion, activeContinuingAction, fusionFailingBlock,
                hact, hcont, hr, hq, hfs, fuseYaw, isTimedOut, hns]
        | false =>
          cases hto : isTimedOut s s.aid_src_ev_yaw.time_last_fuse
              s.params.no_aid_timeout_max with
          | false =>
            simp only [isTimedOut] at hto
            simp [controlEvYawFusion, activeContinuingAction, fusionFailingBlock,
                  hact, hcont, hr, hq, hfs, fuseYaw, isTimedOut,
                  aidAfterVeto_time_last_fuse, hto]
          | true =>
            simp only [isTimedOut] at hto
            by_cases hnb : 0 < s.nb_ev_yaw_reset_available
            · simp [controlEvYawFusion, activeContinuingAction, fusionFailingBlock,
                    hact, hcont, hr, hq, hfs, fuseYaw, isTimedOut,
                    aidAfterVeto_time_last_fuse, hto, hnb, resetQuatStateYaw]
              split <;> rfl
            · cases hstt : startingGate s inp with
              | true =>
                simp [controlEvYawFusion, activeContinuingAction, fusionFailingBlock,
                      hact, hcont, hr, hq, hfs, fuseYaw, isTimedOut,
                      aidAfterVeto_time_last_fuse, hto, hnb, hstt,
                      stopEvYawFusion, resetEstimatorAidStatus] at hend
              | false =>
                simp [controlEvYawFusion, activeContinuingAction, fusionFailingBlock,
                      hact, hcont, hr, hq, hfs, fuseYaw, isTimedOut,
                      aidAfterVeto_time_last_fuse, hto, hnb, hstt,
                      stopEvYawFusion, resetEstimatorAidStatus] at hend
      | false =>
        cases hto : isTimedOut s s.aid_src_ev_yaw.time_last_fuse
            s.params.no_aid_timeout_max with
        | false =>
          simp only [isTimedOut] at hto
          simp [controlEvYawFusion, activeContinuingAction, fusionFailingBlock,
                hact, hcont, hr, hq, isTimedOut,
                aidAfterVeto_time_last_fuse, hto]
        | true =>
          simp only [isTimedOut] at hto
          cases hstt : startingGate s inp with
          | true =>
            simp [controlEvYawFusion, activeContinuingAction, fusionFailingBlock,
                  hact, hcont, hr, hq, isTimedOut,
                  aidAfterVeto_time_last_fuse, hto, hstt,
                  stopEvYawFusion, resetEstimatorAidStatus] at hend
          | false =>
            simp [controlEvYawFusion, activeContinuingAction, fusionFailingBlock,
                  hact, hcont, hr, hq, isTimedOut,
                  aidAfterVeto_time_last_fuse, hto, hstt,
                  stopEvYawFusion, resetEstimatorAidStatus] at hend


/-- Witness for C3 (amended) at a concrete recent-fuse active state. -/
theorem C3_witness :
    (controlEvYawFusion sRecentFuse inpFuseRejected).1.R_to_earth_yaw
        = sRecentFuse.R_to_earth_yaw
    ∧ (controlEvYawFusion sRecentFuse inpFuseRejected).2.all
        (fun e => !(Event.isYawReset e)) = true
    ∧ Event.fuseYawCall (aidAfterVeto sRecentFuse inpFuseRejected.ev_sample).innovation
        (aidAfterVeto sRecentFuse inpFuseRejected.ev_sample).observation_variance
        ∈ (controlEvYawFusion sRecentFuse inpFuseRejected).2 :=
  C3_no_spurious_reset sRecentFuse inpFuseRejected (by decide) (by decide)
    (by decide) (by decide) (by decide)

/-- Witness for C5 (amended) at the concrete aligned earth-frame activation. -/
theorem C5_witness :
    (controlEvYawFusion sInactiveAligned inpFuseRejected).1.control_status.ev_yaw = true
    ∧ (controlEvYawFusion sInactiveAligned inpFuseRejected).1.aid_src_ev_yaw.time_last_fuse
        = sInactiveAligned.imu_time_delayed
    ∧ (controlEvYawFusion sInactiveAligned inpFuseRejected).2.all
        (fun e => !(Event.isYawReset e)) = true
    ∧ (controlEvYawFusion sInactiveAligned inpFuseRejected).1.R_to_earth_yaw
        = sInactiveAligned.R_to_earth_yaw
    ∧ (controlEvYawFusion sInactiveAligned inpFuseRejected).1.control_status.yaw_align
        = true :=
  C5_earth_frame_activation sInactiveAligned inpFuseRejected (by decide) (by decide)
    (by decide) (by decide)

/-- Witness for C8 (amended) at a concrete cycle that stays active. -/
theorem C8_witness :
    (controlEvYawFusion sRecentFuse inpFuseOk).1.aid_src_ev_yaw.fusion_enabled
        = true :=
  C8_fusion_enabled_while_active sRecentFuse inpFuseOk (by decide) (by decide)
/-- C2: when the channel is Inactive, the sample is body-frame (FRD) and the
starting gate passes, the cycle stops the magnetometer-yaw, GPS-yaw and GPS
fusion channels, resets the orientation-yaw state to the observation, clears
the yaw-alignment flag, activates the channel and sets the reset budget
to 5. -/
theorem C2_body_frame_activation (s : EkfState) (inp : CycleInput)
    (hinact : s.control_status.ev_yaw = false)
    (hfrd : inp.ev_sample.pos_frame = PositionFrame.LOCAL_FRAME_FRD)
    (hst : startingGate s inp = true) :
    (controlEvYawFusion s inp).1.control_status.mag = false
    ∧ (controlEvYawFusion s inp).1.control_status.gps_yaw = false
    ∧ (controlEvYawFusion s inp).1.control_status.gps = false
    ∧ (controlEvYawFusion s inp).1.R_to_earth_yaw = inp.ev_sample.quat_yaw
    ∧ Event.resetQuatStateYawCall (aidAfterVeto s inp.ev_sample).observation
        (aidAfterVeto s inp.ev_sample).observation_variance
        ∈ (controlEvYawFusion s inp).2
    ∧ (controlEvYawFusion s inp).1.control_status.yaw_align = false
    ∧ (controlEvYawFusion s inp).1.control_status.ev_yaw = true
    ∧ (controlEvYawFusion s inp).1.nb_ev_yaw_reset_available = 5 := by
  simp [controlEvYawFusion, activateEvYaw, stopMagFusion, stopGpsYawFusion,
        stopGpsFusion, resetQuatStateYaw, hinact, hfrd, hst,
        aidAfterVeto_observation]

/-- Witness for C2 at a concrete inactive state with all competing heading
channels running. -/
theorem C2_witness :
    (controlEvYawFusion sInactive inpFRD).1.control_status.mag = false
    ∧ (controlEvYawFusion sInactive inpFRD).1.control_status.gps_yaw = false
    ∧ (controlEvYawFusion sInactive inpFRD).1.control_status.gps = false
    ∧ (controlEvYawFusion sInactive inpFRD).1.R_to_earth_yaw
        = inpFRD.ev_sample.quat_yaw
    ∧ Event.resetQuatStateYawCall (aidAfterVeto sInactive inpFRD.ev_sample).observation
        (aidAfterVeto sInactive inpFRD.ev_sample).observation_variance
        ∈ (controlEvYawFusion sInactive inpFRD).2
    ∧ (controlEvYawFusion sInactive inpFRD).1.control_status.yaw_align = false
    ∧ (controlEvYawFusion sInactive inpFRD).1.control_status.ev_yaw = true
    ∧ (controlEvYawFusion sInactive inpFRD).1.nb_ev_yaw_reset_available = 5 :=
  C2_body_frame_activation sInactive inpFRD (by decide) (by decide) (by decide)

/-- C4: the timeout-recovery branch passes the raw innovation to the yaw
reset primitive, whereas the discontinuity branch passes the observation;
and at a concrete input the two angles differ. -/
theorem C4_reset_target_angles :
    (∀ (s : EkfState) (inp : CycleInput),
      s.control_status.ev_yaw = true →
      continuingConditionsPassing s inp.ev_sample = true →
      inp.ev_reset = false → inp.quality_sufficient = true →
      inp.fuse_success = false →
      isTimedOut s s.aid_src_ev_yaw.time_last_fuse
          s.params.no_aid_timeout_max = true →
      0 < s.nb_ev_yaw_reset_available →
      Event.resetQuatStateYawCall (aidAfterVeto s inp.ev_sample).innovation
          (aidAfterVeto s inp.ev_sample).observation_variance
          ∈ (controlEvYawFusion s inp).2)
    ∧ (∀ (s : EkfState) (inp : CycleInput),
      s.control_status.ev_yaw = true →
      continuingConditionsPassing s inp.ev_sample = true →
      inp.ev_reset = true → inp.quality_sufficient = true →
      Event.resetQuatStateYawCall (aidAfterVeto s inp.ev_sample).observation
          (aidAfterVeto s inp.ev_sample).observation_variance
          ∈ (controlEvYawFusion s inp).2)
    ∧ (aidAfterVeto sBudget evNED).innovation
        ≠ (aidAfterVeto sBudget evNED).observation := by
  refine ⟨?_, ?_, ?_⟩
  · intro s inp hact hcont hr hq hfs hto hnb
    simp only [isTimedOut] at hto
    simp [controlEvYawFusion, activeContinuingAction, fusionFailingBlock,
          hact, hcont, hr, hq, hfs, fuseYaw, isTimedOut,
          aidAfterVeto_time_last_fuse, hto, hnb, resetQuatStateYaw]
  · intro s inp hact hcont hr hq
    simp [controlEvYawFusion, activeContinuingAction, fusionFailingBlock,
          hact, hcont, hr, hq, resetQuatStateYaw, isTimedOut]
  · have hinn : (aidAfterVeto sBudget evNED).innovation
        = wrap_pi (Rat.divInt 1 1 - Rat.divInt 1 4) := by
      simp [aidAfterVeto, gpsNedVeto, obsAidSrc, resetEstimatorAidStatus,
            sBudget, sBase, evNED]
    have hobs : (aidAfterVeto sBudget evNED).observation = Rat.divInt 1 4 := by
      simp [aidAfterVeto, gpsNedVeto, obsAidSrc, resetEstimatorAidStatus,
            sBudget, sBase, evNED]
    rw [hinn, hobs]
    have h34 : (Rat.divInt 1 1 - Rat.divInt 1 4 : Rat) = 3 / 4 := by
      norm_num [Rat.divInt_eq_div]
    rw [h34, wrap_pi_eq_self (by norm_num [pi_q]) (by norm_num [pi_q])]
    norm_num [Rat.divInt_eq_div]


/-- Witness for C4: both branch descriptions instantiated at concrete
timed-out-recovery and discontinuity cycles. -/
theorem C4_witness :
    Event.resetQuatStateYawCall
        (aidAfterVeto sBudget inpFuseRejected.ev_sample).innovation
        (aidAfterVeto sBudget inpFuseRejected.ev_sample).observation_variance
        ∈ (controlEvYawFusion sBudget inpFuseRejected).2
    ∧ Event.resetQuatStateYawCall
        (aidAfterVeto sBase inpEvReset.ev_sample).observation
        (aidAfterVeto sBase inpEvReset.ev_sample).observation_variance
        ∈ (controlEvYawFusion sBase inpEvReset).2 :=
  ⟨C4_reset_target_angles.1 sBudget inpFuseRejected (by decide) (by decide)
      (by decide) (by decide) (by decide) (by decide) (by decide),
   C4_reset_target_angles.2.1 sBase inpEvReset (by decide) (by decide)
      (by decide) (by decide)⟩
